import Mathlib

/-!
Verification development for the healthy-byte repository (src/lib/index.js and
src/lib/test.js).

The repository is a thin Genkit/Firebase orchestration layer.  The parts the
claims are about are embedded shallowly here:

* JSON values are modelled by the inductive `Json`; JavaScript numbers are
  modelled as exact rationals (`ℚ`).  All concrete inputs exercised below are
  small integers, where double-precision arithmetic is exact, so the rational
  model agrees with the JavaScript semantics on them.
* The Zod schemas (`nutritionInformationSchema`, the flow input and output
  schemas) become parsers `Json → Option _`; `safeParse` succeeds exactly when
  the parser returns `some`.
* The tool body of `nutritionFactsTool` becomes a pure function from the API
  key configuration (`Option String`, the empty string matching the JavaScript
  falsiness check) and the network outcome to a `ToolOutcome`, which records
  both the result (the returned summary string, or the generic error message)
  and whether the outbound HTTP request was issued.
* `Number.prototype.toFixed(1)` follows ECMA-262: the integer `n` minimising
  the distance of `n / 10` to the value, larger `n` on ties (`jsToFixed1`).
  Template interpolation of a number with no rounding is `jsNumRender`, which
  matches JavaScript exactly on integer values (the only ones the claims
  exercise); a non-integral rational is rendered as its exact fraction, which
  still applies no rounding.
-/

/-- Model of a JSON value as delivered by the nutrition API or produced by the
model: JavaScript numbers are modelled as exact rationals. -/
inductive Json : Type where
  | null : Json
  | bool : Bool → Json
  | num : ℚ → Json
  | str : String → Json
  | arr : List Json → Json
  | obj : List (String × Json) → Json

/-- First binding of a key in a JavaScript-object field list. -/
def lookupField : List (String × Json) → String → Option Json
  | [], _ => none
  | (k, v) :: rest, key => if k = key then some v else lookupField rest key

/-- Property access on a JSON value: defined only on objects. -/
def Json.getField : Json → String → Option Json
  | .obj fields, key => lookupField fields key
  | _, _ => none

/-- Zod `z.string()`: accepts exactly JSON strings. -/
def Json.asString : Json → Option String
  | .str s => some s
  | _ => none

/-- Zod `z.number()`: accepts exactly JSON numbers. -/
def Json.asNumber : Json → Option ℚ
  | .num q => some q
  | _ => none

/-- A string-typed field of a Zod object schema. -/
def Json.getStr (j : Json) (key : String) : Option String :=
  (j.getField key).bind Json.asString

/-- A number-typed field of a Zod object schema. -/
def Json.getNum (j : Json) (key : String) : Option ℚ :=
  (j.getField key).bind Json.asNumber

/-- One parsed record of the nutrition API response, with the exact field
types of `nutritionInformationSchema` in src/lib/index.js (note that
`protein_g`, like `name`, `calories` and `serving_size_g`, is `z.string()`
there, and the eight remaining fields are `z.number()`). -/
structure NutritionItem : Type where
  name : String
  calories : String
  serving_size_g : String
  fat_total_g : ℚ
  fat_saturated_g : ℚ
  protein_g : String
  sodium_mg : ℚ
  potassium_mg : ℚ
  cholesterol_mg : ℚ
  carbohydrates_total_g : ℚ
  fiber_g : ℚ
  sugar_g : ℚ
deriving DecidableEq, Repr

/-- The per-item object schema inside `nutritionInformationSchema`: every
field must be present with the declared type. -/
def parseNutritionItem (j : Json) : Option NutritionItem := do
  let name ← j.getStr "name"
  let calories ← j.getStr "calories"
  let serving ← j.getStr "serving_size_g"
  let fat ← j.getNum "fat_total_g"
  let satFat ← j.getNum "fat_saturated_g"
  let protein ← j.getStr "protein_g"
  let sodium ← j.getNum "sodium_mg"
  let potassium ← j.getNum "potassium_mg"
  let cholesterol ← j.getNum "cholesterol_mg"
  let carbs ← j.getNum "carbohydrates_total_g"
  let fiber ← j.getNum "fiber_g"
  let sugar ← j.getNum "sugar_g"
  pure ⟨name, calories, serving, fat, satFat, protein, sodium, potassium,
    cholesterol, carbs, fiber, sugar⟩

/-- Zod `z.array(itemSchema)`: every element must parse, otherwise the whole
array is rejected. -/
def parseNutritionItems : List Json → Option (List NutritionItem)
  | [] => some []
  | j :: rest => do
    let item ← parseNutritionItem j
    let items ← parseNutritionItems rest
    pure (item :: items)

/-- Validation `nutritionInformationSchema.safeParse`: succeeds exactly when the response
body is a JSON array all of whose elements match the item schema. -/
def nutritionSafeParse : Json → Option (List NutritionItem)
  | .arr js => parseNutritionItems js
  | _ => none

/-- The accumulator of the `reduce` in the tool body: seven running sums. -/
structure NutritionTotals : Type where
  fat : ℚ
  satFat : ℚ
  sodium : ℚ
  cholesterol : ℚ
  carbs : ℚ
  sugar : ℚ
  potassium : ℚ
deriving DecidableEq, Repr

/-- The reducer function of the `reduce` in the tool body. -/
def addItem (acc : NutritionTotals) (item : NutritionItem) : NutritionTotals :=
  { acc with
    fat := acc.fat + item.fat_total_g
    satFat := acc.satFat + item.fat_saturated_g
    sodium := acc.sodium + item.sodium_mg
    cholesterol := acc.cholesterol + item.cholesterol_mg
    carbs := acc.carbs + item.carbohydrates_total_g
    sugar := acc.sugar + item.sugar_g
    potassium := acc.potassium + item.potassium_mg }

/-- The all-zero initial accumulator of the `reduce`. -/
def zeroTotals : NutritionTotals := ⟨0, 0, 0, 0, 0, 0, 0⟩

/-- Summation `data.reduce(addItem, zeroTotals)` of the tool body. -/
def computeTotals (data : List NutritionItem) : NutritionTotals :=
  data.foldl addItem zeroTotals

/-- ECMA-262 `Number.prototype.toFixed` with one fraction digit on the exact
value: the integer closest to ten times the value, the larger one on ties. -/
def jsToFixed1Int (q : ℚ) : ℤ := ⌊10 * q + 1 / 2⌋

/-- Rendering of `x.toFixed(1)`: sign, integer part, dot, one digit. -/
def jsToFixed1 (q : ℚ) : String :=
  let n := jsToFixed1Int q
  let m := n.natAbs
  (if n < 0 then "-" else "") ++ toString (m / 10) ++ "." ++ toString (m % 10)

/-- Template interpolation of a number with no rounding applied: an integer
value renders as its decimal numeral, exactly as in JavaScript; a
non-integral rational renders as its exact fraction (the JavaScript
shortest-round-trip float rendering is not modelled, and no claim below
exercises a non-integral value here). -/
def jsNumRender (q : ℚ) : String :=
  if q.den = 1 then toString q.num else toString q

/-- The template literal returned by the tool body on success. -/
def summarize (t : NutritionTotals) : String :=
  "Total fat: " ++ jsToFixed1 t.fat ++ "g, saturated fat: " ++
    jsToFixed1 t.satFat ++ "g, sodium: " ++ jsNumRender t.sodium ++
    "mg, cholesterol: " ++ jsNumRender t.cholesterol ++ "mg, carbs: " ++
    jsToFixed1 t.carbs ++ "g, sugars: " ++ jsToFixed1 t.sugar ++
    "g, potassium: " ++ jsNumRender t.potassium ++ "mg."

/-- The message of the single generic error thrown by the tool body's catch
clause. -/
def nutritionErrorMsg : String :=
  "Unable to retrieve or process nutrition information."

/-- Outcome of the `axios.get` call to the nutrition endpoint: either a parsed
JSON body or a thrown network error. -/
inductive ApiResponse : Type where
  | success : Json → ApiResponse
  | failure : ApiResponse

/-- Result of one run of the tool body: the returned summary string, or the
message of the error the body threw. -/
inductive ToolResult : Type where
  | ok : String → ToolResult
  | error : String → ToolResult
deriving DecidableEq, Repr

/-- Result of one run of the tool body, together with whether the outbound
HTTP request was issued before the body finished. -/
structure ToolOutcome : Type where
  result : ToolResult
  httpRequested : Bool
deriving DecidableEq, Repr

/-- The body of `nutritionFactsTool` in src/lib/index.js: check the
`API_NINJA_KEY` environment value (absent or empty is falsy and throws before
the request), issue the request, validate with
`nutritionInformationSchema.safeParse`, sum with the `reduce`, and format; the
catch clause converts every thrown error into the one generic error. -/
def nutritionFactsTool (apiKey : Option String) (resp : ApiResponse) :
    ToolOutcome :=
  match apiKey with
  | none => ⟨.error nutritionErrorMsg, false⟩
  | some key =>
    if key = "" then ⟨.error nutritionErrorMsg, false⟩
    else
      match resp with
      | .failure => ⟨.error nutritionErrorMsg, true⟩
      | .success body =>
        match nutritionSafeParse body with
        | none => ⟨.error nutritionErrorMsg, true⟩
        | some data => ⟨.ok (summarize (computeTotals data)), true⟩

/-- The body of `nutritionFactsTool` in src/lib/test.js: identical key check,
request, validation and `reduce`, but its return statement is the compiled
remains of a summary template literal whose backticks were lost
(`return Total;` followed by dead statements), so reaching it evaluates the
unbound identifier `Total`, raising a ReferenceError which the catch clause
converts into the same generic error: the success path can never return. -/
def nutritionFactsToolTest (apiKey : Option String) (resp : ApiResponse) :
    ToolOutcome :=
  match apiKey with
  | none => ⟨.error nutritionErrorMsg, false⟩
  | some key =>
    if key = "" then ⟨.error nutritionErrorMsg, false⟩
    else
      match resp with
      | .failure => ⟨.error nutritionErrorMsg, true⟩
      | .success body =>
        match nutritionSafeParse body with
        | none => ⟨.error nutritionErrorMsg, true⟩
        | some _ => ⟨.error nutritionErrorMsg, true⟩

/-- A natural-number value renders under `toFixed(1)` as its numeral followed
by a zero fraction digit. -/
theorem jsToFixed1_natCast (n : ℕ) : jsToFixed1 (n : ℚ) = toString n ++ ".0" := by
  have hfloor : jsToFixed1Int (n : ℚ) = (10 * n : ℕ) := by
    rw [jsToFixed1Int]
    rw [Int.floor_eq_iff]
    push_cast
    constructor <;> linarith
  rw [jsToFixed1]
  rw [hfloor]
  have h1 : ¬ ((10 * n : ℕ) : ℤ) < 0 := by omega
  rw [if_neg h1]
  have h2 : ((10 * n : ℕ) : ℤ).natAbs = 10 * n := by omega
  rw [h2]
  have h3 : 10 * n / 10 = n := by omega
  have h4 : 10 * n % 10 = 0 := by omega
  rw [h3, h4]
  have h5 : ("." ++ toString (0 : ℕ) : String) = ".0" := rfl
  simp [String.append_assoc, h5]

/-- A natural-number value renders in a template literal as its numeral: no
rounding and no fraction digits. -/
theorem jsNumRender_natCast (n : ℕ) : jsNumRender (n : ℚ) = toString n := by
  rw [jsNumRender]
  rw [Rat.den_natCast, Rat.num_natCast]
  rw [if_pos rfl]
  rfl

/-- One recipe object of the flow's declared output schema: four string
fields, nothing else constrained. -/
structure Recipe : Type where
  title : String
  ingredients : String
  instructions : String
  nutritionInformation : String
deriving DecidableEq, Repr

/-- The flow's declared output value: a recipes array plus the
recommendation string. -/
structure RecipeSuggestionResponse : Type where
  recipes : List Recipe
  healthiestRecommendation : String
deriving DecidableEq, Repr

/-- The per-recipe object schema inside the flow's `outputSchema`. -/
def parseRecipe (j : Json) : Option Recipe := do
  let title ← j.getStr "title"
  let ingredients ← j.getStr "ingredients"
  let instructions ← j.getStr "instructions"
  let nutrition ← j.getStr "nutritionInformation"
  pure ⟨title, ingredients, instructions, nutrition⟩

/-- Zod `z.array(recipeSchema)`: every element must parse. -/
def parseRecipes : List Json → Option (List Recipe)
  | [] => some []
  | j :: rest => do
    let r ← parseRecipe j
    let rs ← parseRecipes rest
    pure (r :: rs)

/-- The flow's `outputSchema`: an object with a `recipes` array of recipe
objects and a `healthiestRecommendation` string.  The array length is not
constrained anywhere in the schema. -/
def parseRecipeSuggestionResponse (j : Json) :
    Option RecipeSuggestionResponse := do
  let recipesJson ← j.getField "recipes"
  let rs ← match recipesJson with
    | .arr js => parseRecipes js
    | _ => none
  let reco ← j.getStr "healthiestRecommendation"
  pure ⟨rs, reco⟩

/-- Zod `z.array(z.string())`: every element must be a string. -/
def parseStringList : List Json → Option (List String)
  | [] => some []
  | j :: rest => do
    let s ← j.asString
    let ss ← parseStringList rest
    pure (s :: ss)

/-- The flow's `inputSchema`: an object with an `ingredients` array of
strings; a zero-length array is a valid array of strings. -/
def parseIngredientsRequest (j : Json) : Option (List String) := do
  let ingredientsJson ← j.getField "ingredients"
  match ingredientsJson with
  | .arr js => parseStringList js
  | _ => none

/-- JSON encoding of a well-shaped recipe object, used to state schema
acceptance. -/
def encodeRecipe (r : Recipe) : Json :=
  .obj [("title", .str r.title), ("ingredients", .str r.ingredients),
    ("instructions", .str r.instructions),
    ("nutritionInformation", .str r.nutritionInformation)]

/-- JSON encoding of a well-shaped flow output object. -/
def encodeResponse (rs : List Recipe) (reco : String) : Json :=
  .obj [("recipes", .arr (rs.map encodeRecipe)),
    ("healthiestRecommendation", .str reco)]

/-- JavaScript implicit array-to-string conversion, as applied to
`query.ingredients` inside the template literal: elements joined by commas,
the empty array yielding the empty string. -/
def jsArrayToString (xs : List String) : String := String.intercalate "," xs

/-- The template literal passed as `prompt` to `ai.generate` in
src/lib/index.js, with `query.ingredients` interpolated. -/
def buildPrompt (ingredients : List String) : String :=
  "You are a professional chef and AI assistant. Your task is to generate exactly three recipes based on the provided ingredients: " ++
    jsArrayToString ingredients ++ ".\n\n" ++
  "                Return your full response as a valid JSON **object** with two properties:\n" ++
  "                1. \"recipes\": an array of exactly 3 recipe objects.\n" ++
  "                2. \"healthiestRecommendation\": a string identifying which of the three recipes is the healthiest, with an explanation.\n\n" ++
  "                Each recipe object must include the following 4 string properties:\n" ++
  "                - \"title\": A concise recipe name.\n" ++
  "                - \"ingredients\": A comma-separated list of max 8 ingredients with the quantities for 4 people.\n" ++
  "                - \"instructions\": A single string of a maximum 80 words describing how to cook the recipe.\n" ++
  "                - \"nutritionInformation\": A string summarizing the key nutrition data for one person (e.g. total fat in grams, sugar, cholesterol, sodium, etc.).\n\n" ++
  "                Use the provided tool \"nutritionFactsTool\" to fetch nutritional data for each recipe.\n" ++
  "                To call the tool, provide an object with key \"ingredientsList\" containing all the ingredients and quantities for ony one person, separated by \"and\".\n" ++
  "                Example: \x7b \"ingredientsList\": \"150g beef and 200g pumpkin and 50ml heavy cream\" \x7d\n\n" ++
  "                For \x27healthiestRecommendation\x27, compare the recipes based on key metrics like total fat, saturated fat, sodium, sugar, and cholesterol, \n" ++
  "                and also consider the overall nutritional quality of the ingredients.\n" ++
  "                Clearly explain why one recipe is healthier than the others."

/-- The request handed to the hosted generation service by `ai.generate`:
the sampling temperature from `config` and the prompt. -/
structure GenRequest : Type where
  temperature : ℚ
  prompt : String
deriving DecidableEq

/-- Outcome of the single awaited `ai.generate` call: the structured output
value the model produced (`llmResponse.output`), or a thrown generation
error carrying its serialized detail. -/
inductive GenOutcome : Type where
  | ok : Json → GenOutcome
  | genError : String → GenOutcome

/-- Error surfaced by the flow: either the framework-level input schema
rejection, or the `HttpsError` with code `internal` thrown by the catch
clause, carrying the serialized detail of the upstream failure. -/
inductive FlowError : Type where
  | inputSchema : String → FlowError
  | internal : String → FlowError
deriving DecidableEq, Repr

/-- Result of one invocation of the flow. -/
inductive FlowResult : Type where
  | ok : RecipeSuggestionResponse → FlowResult
  | error : FlowError → FlowResult
deriving DecidableEq, Repr

/-- Serialized detail used when the model output fails the declared output
schema.  Modelled from the spec: the Genkit wrapper emits a structured
schema-mismatch diagnostic; its exact text is irrelevant to every claim. -/
def outputValidationDetail : String :=
  "model output failed output schema validation"

/-- Serialized detail used when the request fails the declared input
schema.  Modelled from the spec, as for `outputValidationDetail`. -/
def inputValidationDetail : String :=
  "request failed input schema validation"

/-- The body of the flow in src/lib/index.js, from the `ai.generate` call
on: temperature 0, the built prompt, the nutrition tool declared.  The
try/catch converts a thrown generation error into
`HttpsError("internal", JSON.stringify(error))`; serialization is modelled
as carrying the detail string through.  Output validation against the
declared `outputSchema` is performed by the Genkit flow wrapper, which is a
dependency, not part of src/; it is modelled from the spec: a shape
mismatch of the model output is surfaced as the same single internal
error. -/
def runGeneration (ingredients : List String)
    (gen : GenRequest → GenOutcome) : FlowResult :=
  match gen ⟨0, buildPrompt ingredients⟩ with
  | .genError detail => .error (.internal detail)
  | .ok out =>
    match parseRecipeSuggestionResponse out with
    | none => .error (.internal outputValidationDetail)
    | some r => .ok r

/-- The whole `recipesSuggestionFlow`: validate the request against the
declared `inputSchema` (modelled from the spec: the Genkit wrapper rejects a
mismatching request before the body runs), then run the generation body on
the validated ingredients list. -/
def recipesSuggestionFlow (input : Json)
    (gen : GenRequest → GenOutcome) : FlowResult :=
  match parseIngredientsRequest input with
  | none => .error (.inputSchema inputValidationDetail)
  | some ingredients => runGeneration ingredients gen

/-- Builder of a response item with every field of the declared type, in the
schema's field order. -/
def mkItemJson (nm cal srv prot : String)
    (fat satFat sodium potassium cholesterol carbs fiber sugar : ℚ) : Json :=
  .obj [("name", .str nm), ("calories", .str cal),
    ("serving_size_g", .str srv), ("fat_total_g", .num fat),
    ("fat_saturated_g", .num satFat), ("protein_g", .str prot),
    ("sodium_mg", .num sodium), ("potassium_mg", .num potassium),
    ("cholesterol_mg", .num cholesterol),
    ("carbohydrates_total_g", .num carbs), ("fiber_g", .num fiber),
    ("sugar_g", .num sugar)]

/-- The names of the eight fields `nutritionInformationSchema` declares as
`z.number()`. -/
def numericFieldNames : List String :=
  ["fat_total_g", "fat_saturated_g", "sodium_mg", "potassium_mg",
    "cholesterol_mg", "carbohydrates_total_g", "fiber_g", "sugar_g"]

/-- First item of the two-item response exercised by the spec. -/
def demoItem1Json : Json := mkItemJson "beef" "n/a" "100" "n/a" 10 2 100 50 5 20 0 3

/-- Second item of the two-item response exercised by the spec. -/
def demoItem2Json : Json := mkItemJson "cream" "n/a" "50" "n/a" 5 1 50 25 2 10 0 1

/-- The two-item response body. -/
def demoJsonList : List Json := [demoItem1Json, demoItem2Json]

/-- The two-item response body as a JSON array. -/
def demoBody : Json := .arr demoJsonList

/-- The parsed form of `demoBody`. -/
def demoItems : List NutritionItem :=
  [⟨"beef", "n/a", "100", 10, 2, "n/a", 100, 50, 5, 20, 0, 3⟩,
   ⟨"cream", "n/a", "50", 5, 1, "n/a", 50, 25, 2, 10, 0, 1⟩]

/-- Folding the reducer over a list adds the per-field list sums to the
accumulator. -/
theorem foldl_addItem_eq (data : List NutritionItem) :
    ∀ acc : NutritionTotals,
      data.foldl addItem acc =
        ⟨acc.fat + (data.map NutritionItem.fat_total_g).sum,
         acc.satFat + (data.map NutritionItem.fat_saturated_g).sum,
         acc.sodium + (data.map NutritionItem.sodium_mg).sum,
         acc.cholesterol + (data.map NutritionItem.cholesterol_mg).sum,
         acc.carbs + (data.map NutritionItem.carbohydrates_total_g).sum,
         acc.sugar + (data.map NutritionItem.sugar_g).sum,
         acc.potassium + (data.map NutritionItem.potassium_mg).sum⟩ := by
  induction data with
  | nil => intro acc; simp [List.foldl]
  | cons item rest ih =>
    intro acc
    simp only [List.foldl_cons, List.map_cons, List.sum_cons]
    rw [ih]
    simp [addItem, add_assoc]

/-- The `reduce` of the tool body computes exactly the seven per-field
arithmetic sums. -/
theorem computeTotals_eq_sums (data : List NutritionItem) :
    computeTotals data =
      ⟨(data.map NutritionItem.fat_total_g).sum,
       (data.map NutritionItem.fat_saturated_g).sum,
       (data.map NutritionItem.sodium_mg).sum,
       (data.map NutritionItem.cholesterol_mg).sum,
       (data.map NutritionItem.carbohydrates_total_g).sum,
       (data.map NutritionItem.sugar_g).sum,
       (data.map NutritionItem.potassium_mg).sum⟩ := by
  rw [computeTotals, foldl_addItem_eq]
  simp [zeroTotals]

/-- With a non-empty key and a body accepted by the schema, the tool body
returns the formatted summary of the reduced totals. -/
theorem tool_success (key : String) (body : Json) (data : List NutritionItem)
    (hkey : key ≠ "") (hparse : nutritionSafeParse body = some data) :
    nutritionFactsTool (some key) (.success body) =
      ⟨.ok (summarize (computeTotals data)), true⟩ := by
  simp only [nutritionFactsTool, hparse, if_neg hkey]

/-- Only a number satisfies `z.number()`. -/
theorem asNumber_eq_some {j : Json} {q : ℚ} (h : j.asNumber = some q) :
    j = .num q := by
  cases j <;> simp_all [Json.asNumber]

/-- A number-typed field that parses was present and held a number. -/
theorem getNum_num {j : Json} {k : String} {q : ℚ}
    (h : j.getNum k = some q) : j.getField k = some (Json.num q) := by
  rw [Json.getNum] at h
  rcases Option.bind_eq_some.mp h with ⟨v, hv, hq⟩
  rw [hv, asNumber_eq_some hq]

/-- An item accepted by the per-item schema held a number in each of the
eight `z.number()` fields. -/
theorem parseNutritionItem_numeric {j : Json} {item : NutritionItem}
    (h : parseNutritionItem j = some item) :
    ∀ k ∈ numericFieldNames, ∃ q, j.getField k = some (Json.num q) := by
  rw [parseNutritionItem] at h
  simp only [bind, Option.bind_eq_some, Option.pure_def,
    Option.some.injEq] at h
  obtain ⟨nm, hnm, cal, hcal, srv, hsrv, fat, hfat, sat, hsat, prot, hprot,
    sod, hsod, pot, hpot, chol, hchol, carb, hcarb, fib, hfib, sug, hsug,
    hmk⟩ := h
  intro k hk
  simp only [numericFieldNames, List.mem_cons, List.not_mem_nil,
    or_false] at hk
  rcases hk with rfl | rfl | rfl | rfl | rfl | rfl | rfl | rfl
  · exact ⟨fat, getNum_num hfat⟩
  · exact ⟨sat, getNum_num hsat⟩
  · exact ⟨sod, getNum_num hsod⟩
  · exact ⟨pot, getNum_num hpot⟩
  · exact ⟨chol, getNum_num hchol⟩
  · exact ⟨carb, getNum_num hcarb⟩
  · exact ⟨fib, getNum_num hfib⟩
  · exact ⟨sug, getNum_num hsug⟩

/-- Acceptance of the array schema requires acceptance of every element. -/
theorem parseNutritionItems_forall {js : List Json}
    {data : List NutritionItem} (h : parseNutritionItems js = some data) :
    ∀ j ∈ js, ∃ item, parseNutritionItem j = some item := by
  induction js generalizing data with
  | nil => intro j hj; cases hj
  | cons x xs ih =>
    simp only [parseNutritionItems, bind, Option.bind_eq_some,
      Option.pure_def, Option.some.injEq] at h
    obtain ⟨item, hitem, items, hitems, _⟩ := h
    intro j hj
    rcases List.mem_cons.mp hj with rfl | hj
    · exact ⟨item, hitem⟩
    · exact ih hitems j hj

/-- Every well-shaped recipe array round-trips through the recipe array
schema. -/
theorem parseRecipes_map_encode (rs : List Recipe) :
    parseRecipes (rs.map encodeRecipe) = some rs := by
  induction rs with
  | nil => rfl
  | cons r rest ih =>
    simp only [List.map_cons, parseRecipes, ih]
    rfl

/-- Rendering of zero under `toFixed(1)`. -/
theorem jsToFixed1_zero : jsToFixed1 (0 : ℚ) = "0.0" := by
  have h := jsToFixed1_natCast 0
  rw [Nat.cast_zero] at h
  rw [h]
  rfl

/-- Template rendering of zero. -/
theorem jsNumRender_zero : jsNumRender (0 : ℚ) = "0" := by
  have h := jsNumRender_natCast 0
  rw [Nat.cast_zero] at h
  rw [h]
  rfl

/-- Claim C1: for every response accepted by the schema (and a configured,
non-empty API key, without which the adapter does not reach the success
path), the tool returns the single summary sentence whose fat, saturated
fat, carbs and sugars values are the arithmetic sums of `fat_total_g`,
`fat_saturated_g`, `carbohydrates_total_g` and `sugar_g` across all items
rendered by `toFixed(1)`, and whose sodium, cholesterol and potassium
values are the exact sums of `sodium_mg`, `cholesterol_mg` and
`potassium_mg` rendered with no rounding. -/
theorem claim1_summary_is_rendered_sums (key : String) (body : Json)
    (data : List NutritionItem) (hkey : key ≠ "")
    (hparse : nutritionSafeParse body = some data) :
    (nutritionFactsTool (some key) (.success body)).result =
      .ok ("Total fat: " ++
        jsToFixed1 ((data.map NutritionItem.fat_total_g).sum) ++
        "g, saturated fat: " ++
        jsToFixed1 ((data.map NutritionItem.fat_saturated_g).sum) ++
        "g, sodium: " ++
        jsNumRender ((data.map NutritionItem.sodium_mg).sum) ++
        "mg, cholesterol: " ++
        jsNumRender ((data.map NutritionItem.cholesterol_mg).sum) ++
        "mg, carbs: " ++
        jsToFixed1 ((data.map NutritionItem.carbohydrates_total_g).sum) ++
        "g, sugars: " ++
        jsToFixed1 ((data.map NutritionItem.sugar_g).sum) ++
        "g, potassium: " ++
        jsNumRender ((data.map NutritionItem.potassium_mg).sum) ++ "mg.") := by
  rw [tool_success key body data hkey hparse]
  rw [computeTotals_eq_sums]
  rfl

/-- Witness for C1, on the spec's two-item input: the hypotheses hold and
the output is the exact sentence the claim names. -/
theorem claim1_summary_is_rendered_sums_witness :
    ("k" ≠ "" ∧ nutritionSafeParse demoBody = some demoItems) ∧
    (nutritionFactsTool (some "k") (.success demoBody)).result =
      .ok ("Total fat: 15.0g, saturated fat: 3.0g, sodium: 150mg, " ++
        "cholesterol: 7mg, carbs: 30.0g, sugars: 4.0g, potassium: 75mg.") := by
  refine ⟨⟨by decide, rfl⟩, ?_⟩
  rw [claim1_summary_is_rendered_sums "k" demoBody demoItems (by decide) rfl]
  have hfat : (demoItems.map NutritionItem.fat_total_g).sum = ((15 : ℕ) : ℚ) := by
    norm_num [demoItems]
  have hsat : (demoItems.map NutritionItem.fat_saturated_g).sum = ((3 : ℕ) : ℚ) := by
    norm_num [demoItems]
  have hsod : (demoItems.map NutritionItem.sodium_mg).sum = ((150 : ℕ) : ℚ) := by
    norm_num [demoItems]
  have hchol : (demoItems.map NutritionItem.cholesterol_mg).sum = ((7 : ℕ) : ℚ) := by
    norm_num [demoItems]
  have hcarb : (demoItems.map NutritionItem.carbohydrates_total_g).sum = ((30 : ℕ) : ℚ) := by
    norm_num [demoItems]
  have hsug : (demoItems.map NutritionItem.sugar_g).sum = ((4 : ℕ) : ℚ) := by
    norm_num [demoItems]
  have hpot : (demoItems.map NutritionItem.potassium_mg).sum = ((75 : ℕ) : ℚ) := by
    norm_num [demoItems]
  rw [hfat, hsat, hsod, hchol, hcarb, hsug, hpot]
  rw [jsToFixed1_natCast, jsToFixed1_natCast, jsToFixed1_natCast,
    jsToFixed1_natCast, jsNumRender_natCast, jsNumRender_natCast,
    jsNumRender_natCast]
  rfl

/-- A valid single-item body whose `fiber_g` is 5. -/
def fiberBodyA : Json := .arr [mkItemJson "x" "c" "s" "p" 1 1 1 1 1 1 5 1]

/-- The same body except that `fiber_g` is 7. -/
def fiberBodyB : Json := .arr [mkItemJson "x" "c" "s" "p" 1 1 1 1 1 1 7 1]

/-- A response item whose `calories` field holds a number instead of the
string the schema declares. -/
def caloriesNumItemJson : Json :=
  .obj [("name", .str "x"), ("calories", .num 100),
    ("serving_size_g", .str "s"), ("fat_total_g", .num 1),
    ("fat_saturated_g", .num 1), ("protein_g", .str "p"),
    ("sodium_mg", .num 1), ("potassium_mg", .num 1),
    ("cholesterol_mg", .num 1), ("carbohydrates_total_g", .num 1),
    ("fiber_g", .num 1), ("sugar_g", .num 1)]

/-- Counterexample to claim C2 as stated: the adapter does not sum eleven
numeric fields.  The validated schema has only eight `z.number()` fields
(`calories`, for one, is `z.string()`, so a numeric `calories` is
rejected), and even among the eight, `fiber_g` is not summed: two accepted
responses that differ only in `fiber_g` produce the same summary, so at
most seven fields enter the summary. -/
theorem claim2_counterexample :
    (nutritionSafeParse fiberBodyA =
        some [⟨"x", "c", "s", 1, 1, "p", 1, 1, 1, 1, 5, 1⟩] ∧
      nutritionSafeParse fiberBodyB =
        some [⟨"x", "c", "s", 1, 1, "p", 1, 1, 1, 1, 7, 1⟩] ∧
      (5 : ℚ) ≠ 7) ∧
    nutritionFactsTool (some "k") (.success fiberBodyA) =
      nutritionFactsTool (some "k") (.success fiberBodyB) ∧
    parseNutritionItem caloriesNumItemJson = none := by
  refine ⟨⟨rfl, rfl, by norm_num⟩, rfl, rfl⟩

/-- Claim C2 as amended: the adapter sums exactly seven numeric fields
(`fat_total_g`, `fat_saturated_g`, `sodium_mg`, `cholesterol_mg`,
`carbohydrates_total_g`, `sugar_g`, `potassium_mg`) across the items of the
validated response when producing its summary string. -/
theorem claim2_seven_field_sums (key : String) (body : Json)
    (data : List NutritionItem) (hkey : key ≠ "")
    (hparse : nutritionSafeParse body = some data) :
    (nutritionFactsTool (some key) (.success body)).result =
      .ok (summarize
        ⟨(data.map NutritionItem.fat_total_g).sum,
         (data.map NutritionItem.fat_saturated_g).sum,
         (data.map NutritionItem.sodium_mg).sum,
         (data.map NutritionItem.cholesterol_mg).sum,
         (data.map NutritionItem.carbohydrates_total_g).sum,
         (data.map NutritionItem.sugar_g).sum,
         (data.map NutritionItem.potassium_mg).sum⟩) := by
  rw [tool_success key body data hkey hparse, computeTotals_eq_sums]

/-- Witness for the amended C2 at the spec's two-item input. -/
theorem claim2_seven_field_sums_witness :
    ("k" ≠ "" ∧ nutritionSafeParse demoBody = some demoItems) ∧
    (nutritionFactsTool (some "k") (.success demoBody)).result =
      .ok (summarize ⟨15, 3, 150, 7, 30, 4, 75⟩) := by
  refine ⟨⟨by decide, rfl⟩, ?_⟩
  rw [claim2_seven_field_sums "k" demoBody demoItems (by decide) rfl]
  norm_num [demoItems]

/-- Counterexample to claim C3 as stated: `protein_g` is declared
`z.string()`, not `z.number()`, so an item whose `protein_g` holds a number
is rejected, and with it the whole response. -/
theorem claim3_counterexample :
    parseNutritionItem
        (.obj [("name", .str "x"), ("calories", .str "c"),
          ("serving_size_g", .str "s"), ("fat_total_g", .num 1),
          ("fat_saturated_g", .num 1), ("protein_g", .num 5),
          ("sodium_mg", .num 1), ("potassium_mg", .num 1),
          ("cholesterol_mg", .num 1), ("carbohydrates_total_g", .num 1),
          ("fiber_g", .num 1), ("sugar_g", .num 1)]) = none ∧
    nutritionSafeParse
        (.arr [.obj [("name", .str "x"), ("calories", .str "c"),
          ("serving_size_g", .str "s"), ("fat_total_g", .num 1),
          ("fat_saturated_g", .num 1), ("protein_g", .num 5),
          ("sodium_mg", .num 1), ("potassium_mg", .num 1),
          ("cholesterol_mg", .num 1), ("carbohydrates_total_g", .num 1),
          ("fiber_g", .num 1), ("sugar_g", .num 1)]]) = none :=
  ⟨rfl, rfl⟩

/-- Claim C3 as amended: the schema treats the eight fields `fat_total_g`,
`fat_saturated_g`, `sodium_mg`, `potassium_mg`, `cholesterol_mg`,
`carbohydrates_total_g`, `fiber_g` and `sugar_g` as numeric (`protein_g` is
validated as a string): an item all of whose fields hold values of the
declared types is accepted, and a response in which any of the eight
numeric fields of some item did not deserialize as a number is rejected as
a whole (every accepted response holds a number in each of them). -/
theorem claim3_numeric_fields :
    (∀ (nm cal srv prot : String)
        (fat satFat sodium potassium cholesterol carbs fiber sugar : ℚ),
      parseNutritionItem
          (mkItemJson nm cal srv prot fat satFat sodium potassium
            cholesterol carbs fiber sugar) =
        some ⟨nm, cal, srv, fat, satFat, prot, sodium, potassium,
          cholesterol, carbs, fiber, sugar⟩) ∧
    (∀ (body : Json) (data : List NutritionItem),
      nutritionSafeParse body = some data →
      ∀ (js : List Json), body = .arr js →
      ∀ j ∈ js, ∀ k ∈ numericFieldNames,
        ∃ q, j.getField k = some (Json.num q)) := by
  constructor
  · intro nm cal srv prot fat satFat sodium potassium cholesterol carbs
      fiber sugar
    rfl
  · intro body data h js hbody j hj k hk
    subst hbody
    simp only [nutritionSafeParse] at h
    obtain ⟨item, hitem⟩ := parseNutritionItems_forall h j hj
    exact parseNutritionItem_numeric hitem k hk

/-- Witness for the amended C3: the second part applied to the two-item
body, its first item and the `fiber_g` field. -/
theorem claim3_numeric_fields_witness :
    (nutritionSafeParse demoBody = some demoItems ∧
      demoBody = Json.arr demoJsonList ∧
      demoItem1Json ∈ demoJsonList ∧ "fiber_g" ∈ numericFieldNames) ∧
    (∃ q, demoItem1Json.getField "fiber_g" = some (Json.num q)) :=
  ⟨⟨rfl, rfl, by simp [demoJsonList], by simp [numericFieldNames]⟩,
    claim3_numeric_fields.2 demoBody demoItems rfl demoJsonList rfl
      demoItem1Json (by simp [demoJsonList]) "fiber_g"
      (by simp [numericFieldNames])⟩

/-- Claim C4: for every key configuration and network outcome, the tool
either returns the complete formatted summary of the validated data or
fails with the single generic error; no other error and no partial or
default summary is possible. -/
theorem claim4_generic_error_or_full_summary (apiKey : Option String)
    (resp : ApiResponse) :
    (nutritionFactsTool apiKey resp).result = .error nutritionErrorMsg ∨
    ∃ body data, resp = .success body ∧
      nutritionSafeParse body = some data ∧
      (nutritionFactsTool apiKey resp).result =
        .ok (summarize (computeTotals data)) := by
  rcases apiKey with _ | key
  · left; rfl
  · by_cases hkey : key = ""
    · left; simp [nutritionFactsTool, hkey]
    · rcases resp with body | _
      · rcases hdata : nutritionSafeParse body with _ | data
        · left; simp [nutritionFactsTool, if_neg hkey, hdata]
        · right
          exact ⟨body, data, rfl, hdata,
            by simp [nutritionFactsTool, if_neg hkey, hdata]⟩
      · left; simp [nutritionFactsTool, if_neg hkey]

/-- Claim C5: with the API key absent from the process configuration, the
tool fails with the generic error and the outbound HTTP request is never
issued (the throw happens before the `axios.get` call). -/
theorem claim5_missing_key_no_request (resp : ApiResponse) :
    nutritionFactsTool none resp = ⟨.error nutritionErrorMsg, false⟩ := rfl

/-- Claim C6: the flow's declared output schema constrains only the shape:
every well-shaped output value, with a recipes array of any length
(including lengths other than three), passes output validation, yielding
exactly its recipes and recommendation. -/
theorem claim6_output_schema_any_recipe_count (rs : List Recipe)
    (reco : String) :
    parseRecipeSuggestionResponse (encodeResponse rs reco) =
      some ⟨rs, reco⟩ := by
  simp [parseRecipeSuggestionResponse, encodeResponse, Json.getField,
    lookupField, Json.getStr, Json.asString, parseRecipes_map_encode]

/-- Claim C7: the flow's input validation accepts the request whose
`ingredients` field is the empty array, and the empty list reaches the
generation step unchanged. -/
theorem claim7_empty_ingredients_pass_through (gen : GenRequest → GenOutcome) :
    parseIngredientsRequest (.obj [("ingredients", .arr [])]) = some [] ∧
    recipesSuggestionFlow (.obj [("ingredients", .arr [])]) gen =
      runGeneration [] gen :=
  ⟨rfl, rfl⟩

/-- Claim C8: if the generation call fails, or its output fails output
validation, the flow surfaces exactly one internal error (the upstream
detail carried in its message); a successful flow result is exactly a
model output that passed validation, so no partially populated response is
ever returned. -/
theorem claim8_internal_error_surface (ingredients : List String)
    (gen : GenRequest → GenOutcome) :
    (∀ detail, gen ⟨0, buildPrompt ingredients⟩ = .genError detail →
      runGeneration ingredients gen = .error (.internal detail)) ∧
    (∀ out, gen ⟨0, buildPrompt ingredients⟩ = .ok out →
      parseRecipeSuggestionResponse out = none →
      runGeneration ingredients gen =
        .error (.internal outputValidationDetail)) ∧
    (∀ r, runGeneration ingredients gen = .ok r →
      ∃ out, gen ⟨0, buildPrompt ingredients⟩ = .ok out ∧
        parseRecipeSuggestionResponse out = some r) := by
  refine ⟨?_, ?_, ?_⟩
  · intro detail h
    simp only [runGeneration, h]
  · intro out h hparse
    simp only [runGeneration, h, hparse]
  · intro r h
    simp only [runGeneration] at h
    rcases hg : gen ⟨0, buildPrompt ingredients⟩ with out | detail
    · simp only [hg] at h
      rcases hp : parseRecipeSuggestionResponse out with _ | resp
      · simp only [hp] at h
        exact absurd h (by simp)
      · simp only [hp] at h
        injection h with h'
        exact ⟨out, rfl, by rw [hp, h']⟩
    · simp only [hg] at h
      exact absurd h (by simp)

/-- A generation oracle that always fails with a fixed detail. -/
def failingGen : GenRequest → GenOutcome := fun _ => .genError "upstream failure"

/-- Witness for C8: a failing generation call on the empty ingredient list
surfaces as the single internal error carrying its detail. -/
theorem claim8_internal_error_surface_witness :
    failingGen ⟨0, buildPrompt []⟩ = .genError "upstream failure" ∧
    runGeneration [] failingGen = .error (.internal "upstream failure") :=
  ⟨rfl, (claim8_internal_error_surface [] failingGen).1 "upstream failure" rfl⟩

/-- Counterexample to claim C9 as stated: on a present key and the valid
empty-array response, the index.js tool body returns a summary while the
test.js tool body fails, so the two bodies are not equivalent. -/
theorem claim9_counterexample :
    nutritionFactsTool (some "k") (.success (Json.arr [])) ≠
      nutritionFactsToolTest (some "k") (.success (Json.arr [])) := by
  intro h
  have h1 : (nutritionFactsTool (some "k") (.success (Json.arr []))).result =
      ToolResult.ok (summarize zeroTotals) := rfl
  have h2 : (nutritionFactsToolTest (some "k")
      (.success (Json.arr []))).result =
      ToolResult.error nutritionErrorMsg := rfl
  rw [h] at h1
  rw [h1] at h2
  exact ToolResult.noConfusion h2

/-- Claim C9 as amended: the test.js tool body always fails with the same
generic error (its success path raises a ReferenceError from the mangled
summary template), requesting the network exactly when the index.js body
does; so the two bodies agree precisely on the inputs where the index.js
body fails, and diverge on every input where it succeeds. -/
theorem claim9_test_tool_always_fails (apiKey : Option String)
    (resp : ApiResponse) :
    nutritionFactsToolTest apiKey resp =
      ⟨.error nutritionErrorMsg,
        (nutritionFactsTool apiKey resp).httpRequested⟩ := by
  rcases apiKey with _ | key
  · rfl
  · by_cases hkey : key = ""
    · simp [nutritionFactsToolTest, nutritionFactsTool, hkey]
    · rcases resp with body | _
      · rcases hdata : nutritionSafeParse body with _ | data <;>
          simp [nutritionFactsToolTest, nutritionFactsTool, if_neg hkey,
            hdata]
      · simp [nutritionFactsToolTest, nutritionFactsTool, if_neg hkey]

/-- Claim C10: with a key present and the empty JSON array as response, the
tool succeeds and returns the all-zero summary sentence. -/
theorem claim10_empty_array_zero_summary :
    nutritionFactsTool (some "k") (.success (Json.arr [])) =
      ⟨.ok ("Total fat: 0.0g, saturated fat: 0.0g, sodium: 0mg, " ++
        "cholesterol: 0mg, carbs: 0.0g, sugars: 0.0g, potassium: 0mg."),
        true⟩ := by
  have h : nutritionFactsTool (some "k") (.success (Json.arr [])) =
      ⟨.ok (summarize zeroTotals), true⟩ := rfl
  rw [h]
  simp only [summarize, zeroTotals]
  rw [jsToFixed1_zero, jsNumRender_zero]
  rfl
